import Mathlib

set_option linter.unusedVariables false

/-!
Shallow embedding of the reverse-mode automatic-differentiation core and the
SGD optimizer of the tensor library, with theorems settling the spec claims.

Tensor elements are modelled as rationals (the scenario values are exact in
f32, and all claim computations are exact). Rank-1 tensors are lists of
rationals, rank-2 tensors are lists of rows. The graph model (nodes,
requirements, gradient store, backward engine) follows the spec where the
corresponding source files are not part of the repository snapshot; the
per-operation forwards and backward closures are embedded from
burn-autodiff/src/ops/tensor.rs, and the optimizer from
burn-core/src/optim/{decay,momentum,sgd}.rs.
-/

/-- Modelled from the spec: §3 data model of `burn-autodiff` (the
`Requirement` enum of the graph module is not in the source snapshot).
`Grad` marks a user-marked leaf that requires gradient, `GradInBackward` an
interior node that must compute a gradient because some ancestor requires
it, `None` a node needing no gradient. -/
inductive Requirement where
  | Grad
  | GradInBackward
  | None
  deriving DecidableEq, Repr

/-- Modelled from the spec: the graph module's `Requirement::is_none`
(requirement is the `None` variant). -/
def Requirement.isNone : Requirement → Bool
  | .None => true
  | _ => false

/-- Modelled from the spec: §3 — a graph node carries a unique id, a
monotonically increasing creation `order`, the parent ids (empty for
leaves) and its requirement (the `Node`/`NodeRef` record of the graph
module is not in the source snapshot). -/
structure Node where
  id : Nat
  order : Nat
  parents : List Nat
  requirement : Requirement
  deriving DecidableEq, Repr

/-- Modelled from the spec: §4.4 memory discipline — `clone_if_require_grad`
keeps a reference to a parent node only when its requirement is non-`None`;
parents not needing gradient become the "not present" sentinel. -/
def Node.clone_if_require_grad (n : Node) : Option Node :=
  if n.requirement.isNone then none else some n

/-- Modelled from the spec: §3 — an autodiff tensor is the triple of the
wrapped backend's primitive, the shared node, and the collected step
container (modelled as the list of registered step node-ids; its contents
are irrelevant to the claims beyond emptiness of a fresh leaf). -/
structure ADTensor (α : Type) where
  primitive : α
  node : Node
  graph : List Nat

/-- Modelled from the spec: §4.2 step 1 — a tensor made by `ADTensor::new`
gets a fresh untracked leaf node (requirement `None`, no parents) and an
empty graph. Node identity is irrelevant to the claims and fixed at 0. -/
def ADTensor.new {α : Type} (primitive : α) : ADTensor α :=
  { primitive := primitive
    node := { id := 0, order := 0, parents := [], requirement := .None }
    graph := [] }

/-- Modelled from the spec: §3 — a leaf becomes `Grad` only by the user's
explicit `require_grad` call, which marks the tensor's node. -/
def ADTensor.require_grad {α : Type} (t : ADTensor α) : ADTensor α :=
  { t with node := { t.node with requirement := .Grad } }

/-- Modelled from the spec: §4.3 — a tensor is tracked exactly when its
node's requirement is non-`None`. -/
def ADTensor.is_tracked {α : Type} (t : ADTensor α) : Bool :=
  !t.node.requirement.isNone

/-- Embeds `is_require_grad` (burn-autodiff/src/ops/tensor.rs:820-822):
`matches!(tensor.node.requirement, Requirement::Grad)`. -/
def is_require_grad {α : Type} (t : ADTensor α) : Bool :=
  match t.node.requirement with
  | .Grad => true
  | _ => false

/-- Embeds `detach` (burn-autodiff/src/ops/tensor.rs:797-807): remember
whether the input is a user-marked `Grad` leaf, rebuild a fresh tensor over
the same primitive, and re-mark it when it was. -/
def detach {α : Type} (t : ADTensor α) : ADTensor α :=
  let is_req := is_require_grad t
  let fresh := ADTensor.new t.primitive
  match is_req with
  | true => fresh.require_grad
  | false => fresh

/-- Embeds `set_require_grad` (burn-autodiff/src/ops/tensor.rs:809-818):
with `true` it marks the tensor itself; with `false` it returns a fresh
untracked tensor over the primitive, discarding node and graph. -/
def set_require_grad {α : Type} (t : ADTensor α) (require : Bool) : ADTensor α :=
  if require then t.require_grad else ADTensor.new t.primitive

/-- Embeds `maximum` (burn-autodiff/src/ops/tensor.rs:824-826): the body is
`todo!()`, which panics with "not yet implemented"; the panic is modelled
as an `Except.error`, so no value is ever produced. -/
def maximum {α : Type} (lhs rhs : ADTensor α) : Except String (ADTensor α) :=
  Except.error "not yet implemented"

/-- Modelled from the spec: §4.5 — the gradients store maps node ids to
accumulated gradients (grads.rs is not in the source snapshot). -/
def GradStore (α : Type) : Type :=
  Nat → Option α

/-- Modelled from the spec: §4.4 step 1 — the engine starts from an empty
store. -/
def GradStore.empty {α : Type} : GradStore α :=
  fun _ => none

/-- Modelled from the spec: §4.5 — `register` inserts when no entry exists
and otherwise sums with the existing entry. -/
def GradStore.register {α : Type} [Add α] (grads : GradStore α) (n : Nat) (g : α) :
    GradStore α :=
  fun m =>
    if m = n then
      match grads n with
      | some existing => some (existing + g)
      | none => some g
    else grads m

/-- Modelled from the spec: §4.5 — `consume` removes and returns the entry.
The defensive missing-entry form never arises in the modelled runs; it is
surfaced here as `none`. -/
def GradStore.consume {α : Type} (grads : GradStore α) (n : Nat) :
    Option α × GradStore α :=
  (grads n, fun m => if m = n then none else grads m)

/-- Modelled from the spec: §4.4 requirement pruning — the shared `binary`
helper of ops/base.rs (not in the source snapshot) consumes the output
node's gradient and, for each parent position that is present, applies the
per-parent partial function and registers the result under the parent's id;
absent positions produce no registration. -/
def binary {α : Type} [Add α] (parents : Option Node × Option Node) (node : Node)
    (grads : GradStore α) (f_lhs f_rhs : α → α) : GradStore α :=
  match grads.consume node.id with
  | (some grad, after) =>
    let after :=
      match parents.1 with
      | some p => after.register p.id (f_lhs grad)
      | none => after
    match parents.2 with
    | some p => after.register p.id (f_rhs grad)
    | none => after
  | (none, after) => after

/-- Modelled from the spec: §4.4 — the single-parent version of `binary`
from ops/base.rs (not in the source snapshot). -/
def unary {α : Type} [Add α] (parent : Option Node) (node : Node)
    (grads : GradStore α) (f : α → α) : GradStore α :=
  match grads.consume node.id with
  | (some grad, after) =>
    match parent with
    | some p => after.register p.id (f grad)
    | none => after
  | (none, after) => after

/-- Modelled from the spec: §3 — a `Step` owns one reverse-mode action: it
is registered under its output node's `order` and, when invoked, consumes
that node's gradient and registers partials (backward.rs is not in the
source snapshot; the action is the closure `run`). -/
structure Step (α : Type) where
  order : Nat
  run : GradStore α → GradStore α

/-- Inserts a step into a list kept in descending `order`. -/
def insertByOrderDesc {α : Type} (s : Step α) : List (Step α) → List (Step α)
  | [] => [s]
  | t :: ts => if t.order ≤ s.order then s :: t :: ts else t :: insertByOrderDesc s ts

/-- Modelled from the spec: §4.4 step 3 — the engine topologically orders
all steps by descending `order`. -/
def sortByOrderDesc {α : Type} (steps : List (Step α)) : List (Step α) :=
  steps.foldr insertByOrderDesc []

/-- Modelled from the spec: §4.4 — the backward engine seeds the root
node's gradient (ones of the root's shape, supplied here as `seed`), orders
the steps by descending `order`, and invokes each in turn. -/
def execute_steps {α : Type} [Add α] (root : Node) (seed : α) (steps : List (Step α)) :
    GradStore α :=
  let grads := GradStore.empty.register root.id seed
  (sortByOrderDesc steps).foldl (fun g s => s.run g) grads

/-- Rank-1 tensors of the model backend: lists of rationals. -/
abbrev Vec : Type := List ℚ

/-- The model backend's elementwise `add` on rank-1 tensors. -/
def vadd : Vec → Vec → Vec :=
  List.zipWith (· + ·)

instance : Add Vec := ⟨vadd⟩

/-- The model backend's elementwise `mul` on rank-1 tensors. -/
def vmul : Vec → Vec → Vec :=
  List.zipWith (· * ·)

/-- The model backend's `ones` on rank-1 tensors. -/
def vones (n : Nat) : Vec :=
  List.replicate n 1

/-- Rank-2 tensors of the model backend: lists of rows of rationals. -/
abbrev Mat : Type := List (List ℚ)

/-- The model backend's elementwise `add` on rank-2 tensors. -/
def madd : Mat → Mat → Mat :=
  List.zipWith vadd

instance : Add Mat := ⟨madd⟩

/-- The model backend's `ones` on rank-2 tensors. -/
def mones (rows cols : Nat) : Mat :=
  List.replicate rows (List.replicate cols 1)

/-- The model backend's `shape` of a rank-2 tensor: its `dims` list. -/
def matShape (m : Mat) : List Nat :=
  [m.length, (m.headD []).length]

/-- The elements of a list inside the half-open range `[r.1, r.2)`. -/
def sliceRange {α : Type} (l : List α) (r : Nat × Nat) : List α :=
  (l.take r.2).drop r.1

/-- The model backend's `index` on a rank-2 tensor: one half-open range per
dimension. -/
def matIndex (m : Mat) (idx : List (Nat × Nat)) : Mat :=
  (sliceRange m (idx.headD (0, 0))).map fun row => sliceRange row (idx.getD 1 (0, 0))

/-- Embeds the captured state of `mul` (burn-autodiff/src/ops/tensor.rs:
184-188): on the tracked branch the step's state is the pair
`(rhs_tracked.then(lhs.primitive), lhs_tracked.then(rhs.primitive))` — the
lhs value is kept iff the rhs is tracked and vice versa; the unneeded side
is the `None` sentinel. (`Mul` is the source's zero-sized tag; `MulOp`
avoids the name of the core typeclass.) -/
def MulOp.state {α : Type} (lhs rhs : ADTensor α) : Option α × Option α :=
  (if rhs.is_tracked then some lhs.primitive else none,
   if lhs.is_tracked then some rhs.primitive else none)

/-- Embeds the captured state of `div` (burn-autodiff/src/ops/tensor.rs:
253-257): the lhs value is kept iff the rhs is tracked, and the rhs value
iff the lhs or the rhs is tracked. -/
def DivOp.state {α : Type} (lhs rhs : ADTensor α) : Option α × Option α :=
  (if rhs.is_tracked then some lhs.primitive else none,
   if lhs.is_tracked || rhs.is_tracked then some rhs.primitive else none)

/-- Embeds `Mul::backward` (burn-autodiff/src/ops/tensor.rs:164-174): the
lhs partial multiplies the incoming gradient by the captured rhs value and
the rhs partial by the captured lhs value. The source's `unwrap` on a
missing capture is a construction bug that never arises when the capture
discipline is respected; it is modelled with the empty-tensor default. -/
def MulOp.backward (state : Option Vec × Option Vec)
    (parents : Option Node × Option Node) (node : Node) (grads : GradStore Vec) :
    GradStore Vec :=
  let lhs := state.1
  let rhs := state.2
  binary parents node grads
    (fun grad => vmul grad (rhs.getD []))
    (fun grad => vmul grad (lhs.getD []))

/-- Embeds `Sum::backward` (burn-autodiff/src/ops/tensor.rs:865-874)
specialized to a rank-1 parent: `ones(state_shape)` multiplied by the
broadcast of the single-element incoming gradient. -/
def SumOp.backward (shape : Nat) (parent : Option Node) (node : Node)
    (grads : GradStore Vec) : GradStore Vec :=
  unary parent node grads fun grad =>
    vmul (vones shape) (List.replicate shape (grad.headD 0))

/-- Embeds `CatStep::step` (burn-autodiff/src/ops/tensor.rs:1238-1252): the
output gradient is consumed, the index ranges start as the full ranges of
the gradient's shape, and for each present parent at position `i` the range
along `dim` is replaced by `i..i+1` and that slice of the gradient is
registered under the parent's id. -/
def CatStep.step (nodes : List (Option Node)) (output : Node) (dim : Nat)
    (grads : GradStore Mat) : GradStore Mat :=
  match grads.consume output.id with
  | (some grad, after) =>
    let indexes : List (Nat × Nat) := (matShape grad).map fun v => (0, v)
    (nodes.enum.filterMap fun p => p.2.map fun node => (p.1, node)).foldl
      (fun g p =>
        let idx := indexes.set dim (p.1, p.1 + 1)
        g.register p.2.id (matIndex grad idx))
      after
  | (none, after) => after

/-- State of `Momentum` (burn-core/src/optim/momentum.rs:24-27), the
velocity; the source's spelling of the name is kept. -/
structure MomemtumState where
  velocity : ℚ
  deriving DecidableEq, Repr

/-- Hyperparameters of `Momentum` (burn-core/src/optim/momentum.rs:30-34). -/
structure Momentum where
  momentum : ℚ
  dampening : ℚ
  nesterov : Bool

/-- Embeds `Momentum::transform` (burn-core/src/optim/momentum.rs:57-76):
with a state present the velocity is `grad·(1 − dampening) + velocity·μ`,
otherwise it is `grad`; the output gradient is `velocity·μ + grad` under
Nesterov and the velocity itself otherwise; the new state is the velocity. -/
def Momentum.transform (m : Momentum) (grad : ℚ) (state : Option MomemtumState) :
    ℚ × MomemtumState :=
  let velocity :=
    match state with
    | some s => grad * (1 - m.dampening) + s.velocity * m.momentum
    | none => grad
  let out :=
    match m.nesterov with
    | true => velocity * m.momentum + grad
    | false => velocity
  (out, ⟨velocity⟩)

/-- State of `WeightDecay` (burn-core/src/optim/decay.rs:17-20): the
previous step's raw gradient. -/
structure WeightDecayState where
  grad_last_step : ℚ
  deriving DecidableEq, Repr

/-- Hyperparameter of `WeightDecay` (burn-core/src/optim/decay.rs:23-25). -/
structure WeightDecay where
  penalty : ℚ

/-- Embeds `WeightDecay::transform` (burn-core/src/optim/decay.rs:46-59):
the output is `state.grad_last_step·penalty + grad` when a state is
present and `grad` otherwise; the new state is always the pre-transform
gradient. -/
def WeightDecay.transform (w : WeightDecay) (grad : ℚ) (state : Option WeightDecayState) :
    ℚ × WeightDecayState :=
  let grad_last_step := grad
  let out :=
    match state with
    | some s => s.grad_last_step * w.penalty + grad
    | none => grad
  (out, ⟨grad_last_step⟩)

/-- The `Sgd` optimizer (burn-core/src/optim/sgd.rs:28-31): optional
momentum and optional weight decay. -/
structure Sgd where
  momentum : Option Momentum
  weight_decay : Option WeightDecay

/-- State of `Sgd` (burn-core/src/optim/sgd.rs:35-38): the pair of optional
sub-states. -/
structure SgdState where
  weight_decay : Option WeightDecayState
  momentum : Option MomemtumState
  deriving DecidableEq, Repr

/-- Embeds `Sgd::step` (burn-core/src/optim/sgd.rs:62-93), mirroring the
source's sequence of reassignments: unpack the optional sub-states, apply
the weight-decay transform when configured, then the momentum transform
when configured, and return `tensor − grad·lr` with the new state pair. -/
def Sgd.step (s : Sgd) (lr : ℚ) (tensor grad : ℚ) (state : Option SgdState) :
    ℚ × Option SgdState :=
  let state_weight_decay :=
    match state with
    | some st => st.weight_decay
    | none => Option.none
  let state_momemtum :=
    match state with
    | some st => st.momentum
    | none => Option.none
  let step1 :=
    match s.weight_decay with
    | some weight_decay =>
      let r := weight_decay.transform grad state_weight_decay
      (r.1, some r.2)
    | none => (grad, state_weight_decay)
  let step2 :=
    match s.momentum with
    | some momentum =>
      let r := momentum.transform step1.1 state_momemtum
      (r.1, some r.2)
    | none => (step1.1, state_momemtum)
  let delta := step2.1 * lr
  (tensor - delta, some ⟨step1.2, step2.2⟩)

/-- Modelled from the spec: §4.6 SGD composition — apply weight-decay first
(updating its state), then momentum (updating its state), then
`θ' = θ − lr·g`; return the new parameter and the pair of optional
sub-states. Stated independently of the source's control flow, as the
composition of the two transform functions. -/
def sgd_step_spec (s : Sgd) (lr θ g : ℚ) (state : Option SgdState) :
    ℚ × Option SgdState :=
  let wd0 := state.bind fun st => st.weight_decay
  let mom0 := state.bind fun st => st.momentum
  let afterDecay :=
    match s.weight_decay with
    | some w => ((w.transform g wd0).1, some (w.transform g wd0).2)
    | none => (g, wd0)
  let afterMomentum :=
    match s.momentum with
    | some m => ((m.transform afterDecay.1 mom0).1, some (m.transform afterDecay.1 mom0).2)
    | none => (afterDecay.1, mom0)
  (θ - lr * afterMomentum.1, some ⟨afterDecay.2, afterMomentum.2⟩)

/-- Scenario S5's first parent node: the tracked 2x2 tensor [[1,2],[3,4]]. -/
def s5_first : Node := ⟨0, 0, [], .Grad⟩

/-- Scenario S5's second parent node: the tracked 1x2 tensor [[5,6]]. -/
def s5_second : Node := ⟨1, 1, [], .Grad⟩

/-- Scenario S5's concatenation output node. -/
def s5_out : Node := ⟨2, 2, [0, 1], .GradInBackward⟩

/-- Scenario S5's incoming gradient: ones(3,2). -/
def s5_grad : Mat := mones 3 2

/-- Scenario S5's parent references as `CatStep` keeps them, via
`clone_if_require_grad`. -/
def s5_nodes : List (Option Node) :=
  [s5_first.clone_if_require_grad, s5_second.clone_if_require_grad]

/-- The store after running the cat backward step of scenario S5. -/
def s5_result : GradStore Mat :=
  CatStep.step s5_nodes s5_out 0 (GradStore.empty.register s5_out.id s5_grad)

/-- Scenario S5 variant with the first parent untracked. -/
def s5_nodes_first_untracked : List (Option Node) :=
  [Node.clone_if_require_grad ⟨0, 0, [], .None⟩, s5_second.clone_if_require_grad]

/-- The store after the variant run with the first parent untracked. -/
def s5_result_first_untracked : GradStore Mat :=
  CatStep.step s5_nodes_first_untracked s5_out 0 (GradStore.empty.register s5_out.id s5_grad)

/-- C1: evaluating the embedded `CatStep::step` at scenario S5 (parents of
shapes 2x2 and 1x2 concatenated along dim 0, incoming gradient ones(3,2))
registers ones(1,2) — the slice of the gradient at rows [0,1) — for the
first parent, not ones(2,2) as the claim (and the correct adjoint of
concatenation) states: the step slices at the parent's position index
`i..i+1` instead of at the parent's row offset. The second parent receives
ones(1,2) (rows [1,2); numerically equal here to the correct rows [2,3)
because the gradient is all ones), and an untracked parent position
receives no entry. -/
theorem cat_backward_positional_slice_bug :
    s5_result s5_first.id = some (mones 1 2) ∧
    s5_result s5_first.id ≠ some (mones 2 2) ∧
    s5_result s5_second.id = some (mones 1 2) ∧
    s5_result_first_untracked 0 = none ∧
    s5_result_first_untracked s5_second.id = some (mones 1 2) := by
  refine ⟨?_, ?_, ?_, ?_, ?_⟩ <;>
  simp [s5_result, s5_result_first_untracked, CatStep.step, s5_nodes,
    s5_nodes_first_untracked, s5_out, s5_first, s5_second, s5_grad, GradStore.empty,
    GradStore.register, GradStore.consume, Node.clone_if_require_grad, Requirement.isNone,
    mones, matShape, matIndex, sliceRange, List.enum]

/-- Two `Momentum::transform` steps starting from no state: the result of
feeding `g0` and then `g1`. -/
def momentum_two_step (m : Momentum) (g0 g1 : ℚ) : ℚ × MomemtumState :=
  m.transform g1 (some (m.transform g0 Option.none).2)

/-- C2 counterexample: with momentum 9/10, dampening 1/10 and nesterov
enabled, feeding g0 = 1 then g1 = 0 yields velocity 9/10 after the second
step — the first step stores v1 = g0 without dampening — whereas the
claimed formula mu*((1 − tau)*g0) + (1 − tau)*g1 gives 81/100. -/
theorem momentum_two_step_claim_false :
    (momentum_two_step ⟨9/10, 1/10, true⟩ 1 0).2.velocity = 9/10 ∧
    ¬ ((momentum_two_step ⟨9/10, 1/10, true⟩ 1 0).2.velocity
        = (9/10 : ℚ) * ((1 - 1/10) * 1) + (1 - 1/10) * 0) := by
  constructor <;> norm_num [momentum_two_step, Momentum.transform]

/-- C2 (amended): starting from no momentum state, feeding g0 then g1
through `Momentum::transform` with momentum mu and dampening tau yields
velocity v2 = mu*g0 + (1 − tau)*g1 after the second step (the dampening
factor is not applied on the first step, which stores v1 = g0), and with
nesterov enabled the second step's output gradient is mu*v2 + g1. -/
theorem momentum_two_step_amended (μ τ g0 g1 : ℚ) :
    (momentum_two_step ⟨μ, τ, true⟩ g0 g1).2.velocity = μ * g0 + (1 - τ) * g1 ∧
    (momentum_two_step ⟨μ, τ, true⟩ g0 g1).1
      = μ * (momentum_two_step ⟨μ, τ, true⟩ g0 g1).2.velocity + g1 := by
  constructor <;> simp [momentum_two_step, Momentum.transform] <;> ring

/-- C3: when mul(a,b) is tracked, the captured state holds b iff a is
tracked and holds a iff b is tracked, the unneeded side being the `None`
sentinel; for div(a,b), a is captured iff b is tracked, and b is captured
whenever a or b is tracked — in particular always, since the operation is
tracked. -/
theorem mul_div_minimal_state_capture {α : Type} (a b : ADTensor α)
    (h : a.is_tracked = true ∨ b.is_tracked = true) :
    ((MulOp.state a b).2 = if a.is_tracked then some b.primitive else none) ∧
    ((MulOp.state a b).1 = if b.is_tracked then some a.primitive else none) ∧
    ((DivOp.state a b).1 = if b.is_tracked then some a.primitive else none) ∧
    ((DivOp.state a b).2 = some b.primitive) := by
  refine ⟨rfl, rfl, rfl, ?_⟩
  rcases h with h | h <;> simp [DivOp.state, h]

/-- C3 witness: a tracked Grad leaf over 1 and an untracked leaf over 2 —
mul captures the rhs (needed by the tracked lhs) and drops the lhs, div
captures its divisor. -/
theorem mul_div_minimal_state_capture_witness :
    (MulOp.state (⟨(1 : ℚ), ⟨0, 0, [], .Grad⟩, []⟩ : ADTensor ℚ)
        ⟨(2 : ℚ), ⟨1, 1, [], .None⟩, []⟩).2 = some 2 ∧
    (MulOp.state (⟨(1 : ℚ), ⟨0, 0, [], .Grad⟩, []⟩ : ADTensor ℚ)
        ⟨(2 : ℚ), ⟨1, 1, [], .None⟩, []⟩).1 = none ∧
    (DivOp.state (⟨(1 : ℚ), ⟨0, 0, [], .Grad⟩, []⟩ : ADTensor ℚ)
        ⟨(2 : ℚ), ⟨1, 1, [], .None⟩, []⟩).1 = none ∧
    (DivOp.state (⟨(1 : ℚ), ⟨0, 0, [], .Grad⟩, []⟩ : ADTensor ℚ)
        ⟨(2 : ℚ), ⟨1, 1, [], .None⟩, []⟩).2 = some 2 := by
  have h := mul_div_minimal_state_capture (⟨(1 : ℚ), ⟨0, 0, [], .Grad⟩, []⟩ : ADTensor ℚ)
    ⟨(2 : ℚ), ⟨1, 1, [], .None⟩, []⟩ (Or.inl rfl)
  simpa [ADTensor.is_tracked, Requirement.isNone] using h

/-- Scenario S1's leaf node for a = [2,3]. -/
def s1_a_node : Node := ⟨0, 0, [], .Grad⟩

/-- Scenario S1's leaf node for b = [4,5]. -/
def s1_b_node : Node := ⟨1, 1, [], .Grad⟩

/-- Scenario S1's node for a*b. -/
def s1_mul_node : Node := ⟨2, 2, [0, 1], .GradInBackward⟩

/-- Scenario S1's node for (a*b).sum(). -/
def s1_sum_node : Node := ⟨3, 3, [2], .GradInBackward⟩

/-- Scenario S1's mul step: both parents tracked, so both operands are
captured. -/
def s1_mul_step : Step Vec :=
  ⟨2, fun grads =>
    MulOp.backward (some [2, 3], some [4, 5]) (some s1_a_node, some s1_b_node) s1_mul_node grads⟩

/-- Scenario S1's sum step over the shape-2 parent. -/
def s1_sum_step : Step Vec :=
  ⟨3, fun grads => SumOp.backward 2 (some s1_mul_node) s1_sum_node grads⟩

/-- The gradients produced by running scenario S1's backward pass: the
engine seeds the sum output with ones(1) and runs the steps in descending
order. -/
def s1_grads : GradStore Vec := execute_steps s1_sum_node [1] [s1_mul_step, s1_sum_step]

/-- C4: backward through y = (a*b).sum() with a = [2,3] and b = [4,5], both
requiring gradient, produces grad_a = [4,5] and grad_b = [2,3]; and in
general the mul step registers g*b for the lhs parent and g*a for the rhs
parent of the incoming gradient g. -/
theorem mul_backward_s1 :
    (s1_grads s1_a_node.id = some [4, 5] ∧ s1_grads s1_b_node.id = some [2, 3]) ∧
    ∀ (g va vb : Vec),
      (MulOp.backward (some va, some vb) (some s1_a_node, some s1_b_node) s1_mul_node
          (GradStore.empty.register s1_mul_node.id g)) s1_a_node.id = some (vmul g vb) ∧
      (MulOp.backward (some va, some vb) (some s1_a_node, some s1_b_node) s1_mul_node
          (GradStore.empty.register s1_mul_node.id g)) s1_b_node.id = some (vmul g va) := by
  constructor
  · constructor <;>
    simp [s1_grads, execute_steps, sortByOrderDesc, insertByOrderDesc, s1_mul_step, s1_sum_step,
      GradStore.empty, GradStore.register, MulOp.backward, SumOp.backward, binary, unary,
      GradStore.consume, s1_sum_node, s1_mul_node, s1_a_node, s1_b_node, vmul, vones]
  · intro g va vb
    constructor <;>
    simp [MulOp.backward, binary, GradStore.consume, GradStore.register, GradStore.empty,
      s1_a_node, s1_b_node, s1_mul_node]

/-- C5: `WeightDecay::transform` returns the gradient unchanged with no
state, returns state*penalty + g with a state, always stores the
pre-transform gradient as the new state, and consequently the third of
three chained steps outputs penalty*g1 + g2 exactly. -/
theorem weight_decay_transform_algebra (p g s g0 g1 g2 : ℚ) :
    ((WeightDecay.transform ⟨p⟩ g Option.none).1 = g) ∧
    ((WeightDecay.transform ⟨p⟩ g (some ⟨s⟩)).1 = s * p + g) ∧
    (∀ st : Option WeightDecayState, (WeightDecay.transform ⟨p⟩ g st).2 = ⟨g⟩) ∧
    ((WeightDecay.transform ⟨p⟩ g2
        (some (WeightDecay.transform ⟨p⟩ g1
          (some (WeightDecay.transform ⟨p⟩ g0 Option.none).2)).2)).1 = p * g1 + g2) := by
  refine ⟨rfl, rfl, fun st => rfl, ?_⟩
  simp [WeightDecay.transform]
  ring

/-- C6: `Sgd::step` coincides, for every learning rate, parameter,
gradient, optional state and configuration of optional transforms, with the
spec-side composition: weight decay first (updating its state), then
momentum (updating its state), then theta − lr*g on the fully transformed
gradient, returning the pair of optional sub-states. -/
theorem sgd_step_composes_transforms (s : Sgd) (lr θ g : ℚ) (state : Option SgdState) :
    Sgd.step s lr θ g state = sgd_step_spec s lr θ g state := by
  obtain ⟨mom, wd⟩ := s
  cases state <;> cases wd <;> cases mom <;>
    simp [Sgd.step, sgd_step_spec] <;> ring_nf

/-- C7: `detach` keeps the primitive, returns a fresh leaf (no parents,
empty graph), and its requirement is `Grad` exactly when the input's
requirement was `Grad` (a user-marked leaf) and `None` otherwise, including
for a `GradInBackward` input. -/
theorem detach_fresh_leaf_preserves_grad_marker {α : Type} (t : ADTensor α) :
    (detach t).primitive = t.primitive ∧
    (detach t).node.parents = [] ∧
    (detach t).graph = [] ∧
    (detach t).node.requirement =
      (if t.node.requirement = Requirement.Grad then Requirement.Grad else Requirement.None) := by
  cases h : t.node.requirement <;>
    simp [detach, is_require_grad, ADTensor.new, ADTensor.require_grad, h]

/-- C8: `maximum` in the autodiff decorator fails as not-implemented for
every pair of inputs and never produces a value. -/
theorem maximum_not_implemented {α : Type} (lhs rhs : ADTensor α) :
    maximum lhs rhs = Except.error "not yet implemented" ∧
    (maximum lhs rhs).toOption = none :=
  ⟨rfl, rfl⟩

/-- C9: `is_require_grad` is true exactly when the node's requirement is
`Grad`; any tensor whose requirement is `GradInBackward` reports false even
though it is tracked (participates in backward). -/
theorem is_require_grad_iff_grad_marker {α : Type} :
    (∀ t : ADTensor α, is_require_grad t = true ↔ t.node.requirement = Requirement.Grad) ∧
    (∀ (p : α) (i o : Nat) (ps g : List Nat),
      is_require_grad (⟨p, ⟨i, o, ps, Requirement.GradInBackward⟩, g⟩ : ADTensor α) = false ∧
      (⟨p, ⟨i, o, ps, Requirement.GradInBackward⟩, g⟩ : ADTensor α).is_tracked = true) := by
  refine ⟨fun t => ?_, fun p i o ps g => ⟨rfl, rfl⟩⟩
  cases h : t.node.requirement <;> simp [is_require_grad, h]

/-- C10: `set_require_grad(t, false)` is exactly a fresh untracked leaf
over t's primitive — requirement `None`, no parents, empty graph — for
every input, including a user-marked `Grad` leaf; `detach`, by contrast,
keeps the `Grad` marker of such a leaf. -/
theorem set_require_grad_false_fresh_untracked {α : Type} (t : ADTensor α) :
    set_require_grad t false = ADTensor.new t.primitive ∧
    (set_require_grad t false).primitive = t.primitive ∧
    (set_require_grad t false).node.parents = [] ∧
    (set_require_grad t false).node.requirement = Requirement.None ∧
    (set_require_grad t false).graph = [] ∧
    (detach t.require_grad).node.requirement = Requirement.Grad :=
  ⟨rfl, rfl, rfl, rfl, rfl, rfl⟩
